import Mathlib

/-!
Verification of the shadow-rs build-time code generator (`src/lib.rs`)
against its natural-language specification.

The embedding below translates the parts of `src/lib.rs` that the claims
are about:

* `Shadow::try_ci` (lines 210-226)        → `tryCI`
* `Shadow::build`'s destination-path computation (lines 228-236)
                                          → `shadowOutPath`
* `Shadow::build`'s table merge (lines 248-255)
                                          → `mergedMap`
* `Shadow::gen_const` / `write_header` / `write_const` (lines 265-303)
                                          → `genConst`, `headerStr`, `renderConst`
* `Shadow::write_version` (lines 305-343) → `versionFn`, `writeVersionOut`
* `Shadow::build`'s effect ordering (lines 228-262)
                                          → `buildRun`

Rust's `std::collections::HashMap` (the type of `Shadow.map` and of the
environment snapshot) has an unspecified, per-instance-seeded iteration
order.  The embedding therefore represents a hash map by the sequence of
its entries as iteration would produce them: any list whose entries agree
with the mapping (keys unique) is a possible iteration snapshot of one and
the same map, and functions that iterate the map (`gen_const`) take that
sequence as input.  Functions that only look keys up (`get`) use
first-occurrence association-list lookup, which coincides with the map's
lookup whenever keys are unique.

The modules `build`, `channel`, `ci`, `env`, `err` and `git` of the
repository are not part of the sources provided; the few items of theirs
that `lib.rs` uses (`ConstType` with its rendered type token, `ConstVal`,
`ShadowConst`, the `TAG` key, `CIType`) are modelled from the spec and
from their use sites, and are marked as such below.
-/

/- ### Character-list utilities (substring search, used to state claims) -/

/-- Boolean prefix test on character lists. -/
def isPrefixL : List Char → List Char → Bool
  | [], _ => true
  | _ :: _, [] => false
  | c :: cs, d :: ds => c == d && isPrefixL cs ds

/-- Whether `pat` occurs as a contiguous substring of `s`. -/
def hasSubL (pat : List Char) : List Char → Bool
  | [] => isPrefixL pat []
  | c :: rest => isPrefixL pat (c :: rest) || hasSubL pat rest

/-- Index of the first occurrence of `pat` in `s`, if any. -/
def subPos (pat : List Char) : List Char → Option Nat
  | [] => if isPrefixL pat [] then some 0 else none
  | c :: rest =>
    if isPrefixL pat (c :: rest) then some 0 else (subPos pat rest).map (· + 1)

/-- The suffix of `s` that follows the first occurrence of `pat`
(empty when `pat` does not occur). -/
def dropAfterSub (pat : List Char) : List Char → List Char
  | [] => []
  | c :: rest =>
    if isPrefixL pat (c :: rest) then (c :: rest).drop pat.length
    else dropAfterSub pat rest

/-- The prefix of `s` that precedes the first occurrence of `pat`
(all of `s` when `pat` does not occur). -/
def takeUntilSub (pat : List Char) : List Char → List Char
  | [] => []
  | c :: rest =>
    if isPrefixL pat (c :: rest) then [] else c :: takeUntilSub pat rest

/-- String wrapper of `hasSubL`. -/
def hasSub (s pat : String) : Bool := hasSubL pat.data s.data

/-- String wrapper of `subPos`: byte-free character index of the first
occurrence of `pat` in `s`. -/
def strPos (s pat : String) : Option Nat := subPos pat.data s.data

/-- The text standing between the first raw-string opener `r#"` of `s` and
the first delimiter-closing sequence `"#` that follows it: the value a
reader of the generated artifact would recover from the first emitted
raw-string literal. -/
def firstRawRegion (s : String) : String :=
  String.mk (takeUntilSub ['\"', '#'] (dropAfterSub ['r', '#', '\"'] s.data))

/-- Rust `str::to_ascii_uppercase`: maps `a`-`z` to `A`-`Z` and leaves every
other character unchanged, which is exactly what `Char.toUpper` does. -/
def toAsciiUppercase (s : String) : String := String.mk (s.data.map Char.toUpper)

/- ### Destination-path computation (`Shadow::build`, lines 228-236) -/

/-- Unix `Path`: a path is absolute when it starts with `/`. -/
def isAbsoluteStr (s : String) : Bool :=
  match s.data with
  | [] => false
  | c :: _ => c == '/'

/-- Rust `str::ends_with('/')`. -/
def endsWithSlash (s : String) : Bool :=
  match s.data.getLast? with
  | some c => c == '/'
  | none => false

/-- Rust `Path::join` on Unix: an absolute argument replaces the whole path,
a relative argument is appended, inserting a `/` separator unless the base
already ends in one. -/
def pathJoin (a b : String) : String :=
  if isAbsoluteStr b then b
  else if endsWithSlash a then a ++ b
  else a ++ "/" ++ b

/-- The fixed artifact filename (`const SHADOW_RS`, line 147). -/
def SHADOW_RS : String := "shadow.rs"

/-- Destination path computed by `Shadow::build` (lines 229-236):
`Path::new(out_path)` joined with `format!("{}/{}", out_path, SHADOW_RS)`
when `out_path` lacks a trailing `/`, and with `SHADOW_RS` otherwise. -/
def shadowOutPath (out_path : String) : String :=
  if !endsWithSlash out_path then pathJoin out_path (out_path ++ "/" ++ SHADOW_RS)
  else pathJoin out_path SHADOW_RS

/-- Lexical path normalization used only to compare computed destinations:
splits on `/` and drops empty and `.` components. -/
def splitSlash : List Char → List (List Char)
  | [] => [[]]
  | c :: rest =>
    if c == '/' then [] :: splitSlash rest
    else
      match splitSlash rest with
      | [] => [[c]]
      | g :: gs => (c :: g) :: gs

/-- Normalized form of a relative path: `/`-separated components with empty
and `.` components removed. -/
def normPath (s : String) : String :=
  String.mk (List.intercalate ['/']
    ((splitSlash s.data).filter fun seg => !(seg == [] || seg == ['.'])))

/- ### Data model (from the missing `build` module, modelled from the spec) -/

/-- Modelled from the spec: the two entry kinds of the fact table, `Plain`
(`Str`) and `OptionalNormalizedToPlain` (`OptStr`); the `build` module that
declares `ConstType` is not in `src/`, but `write_const` (lines 288-291)
matches on exactly these two constructors. -/
inductive ConstType where
  | OptStr
  | Str
  deriving DecidableEq

/-- Modelled from the spec: the rendered type token of a `ConstType`
(`ConstType::to_string()` in the missing `build` module).  The spec calls
`Str`'s token "the plain-string type" and `OptStr`'s "an optional type";
the concrete Rust spellings are used. -/
def ConstType.typeStr : ConstType → String
  | ConstType.OptStr => "Option<&str>"
  | ConstType.Str => "&str"

/-- Key of a fact-table entry (`ShadowConst` is a string type in the
missing `build` module; `write_const` uppercases it at render time). -/
abbrev ShadowConst := String

/-- Modelled from the spec (§3 ConstEntry) and the use sites `val.desc`,
`val.v`, `val.t` in `write_const` and `tag.v` in `write_version`:
a fact-table entry with description, string value and kind. -/
structure ConstVal where
  desc : String
  v : String
  t : ConstType
  deriving DecidableEq

/-- Modelled from the spec: the key of the tag entry provided by the
version-control resolver (the `git` module declaring `TAG` is not in
`src/`; keys are stored lower-case and uppercased at render time). -/
def TAG : ShadowConst := "tag"

/-- First-occurrence association-list lookup: the lookup of a Rust
`HashMap` represented by its entry sequence (keys unique). -/
def lookupKV {α : Type} (k : String) : List (String × α) → Option α
  | [] => none
  | p :: rest => if p.1 = k then some p.2 else lookupKV k rest

/- ### CI detection (`Shadow::try_ci`, lines 210-226; `CIType` modelled
from the spec, the `ci` module is not in `src/`) -/

/-- Modelled from the spec: the CI classification enumeration
`{ Gitlab, Github, None }` of the missing `ci` module. -/
inductive CIType where
  | Gitlab
  | Github
  | None
  deriving DecidableEq

/-- Second half of `try_ci` (lines 217-225): the `GITHUB_ACTIONS` check
reached when the `GITLAB_CI` check did not return. -/
def tryCIGithubStep (env : List (String × String)) : CIType :=
  match lookupKV "GITHUB_ACTIONS" env with
  | some c => if c = "true" then CIType.Github else CIType.None
  | none => CIType.None

/-- `Shadow::try_ci` (lines 210-226): checks `GITLAB_CI` first, then
`GITHUB_ACTIONS`; an indicator must equal the literal `"true"`; otherwise
`CIType::None`. -/
def tryCI (env : List (String × String)) : CIType :=
  match lookupKV "GITLAB_CI" env with
  | some c => if c = "true" then CIType.Gitlab else tryCIGithubStep env
  | none => tryCIGithubStep env

/- ### Fact merge (`Shadow::build`, lines 248-255) -/

/-- `HashMap::insert` on the association-list representation: replaces the
value at an existing key, otherwise appends the new entry. -/
def insertKV : List (ShadowConst × ConstVal) → ShadowConst → ConstVal → List (ShadowConst × ConstVal)
  | [], k, v => [(k, v)]
  | p :: rest, k, v => if p.1 = k then (k, v) :: rest else p :: insertKV rest k v

/-- One `for (k, v) in table { map.insert(k, v); }` loop of `Shadow::build`
(lines 249-254). -/
def mergeStep (m : List (ShadowConst × ConstVal)) (t : List (ShadowConst × ConstVal)) :
    List (ShadowConst × ConstVal) :=
  t.foldl (fun acc p => insertKV acc p.1 p.2) m

/-- The merged fact table of `Shadow::build` (lines 248-255): starts from
the VCS table (`new_git`), then inserts every project fact
(`new_project`), then every environment/system fact (`new_system_env`). -/
def mergedMap (git proj sys : List (ShadowConst × ConstVal)) :
    List (ShadowConst × ConstVal) :=
  mergeStep (mergeStep git proj) sys

/- ### Code generation (`gen_const` / `write_header` / `write_const` /
`write_version`, lines 265-343).  `writeln!` appends a newline to its
formatted text; the functions below return the exact text each call
appends to the output file. -/

/-- Text appended by `write_header` (lines 273-283): the banner comment
with the render-time timestamp `ts` (`Local::now().format("%Y-%m-%d %H:%M:%S")`),
followed by the `"{}\n\n"` format's two newlines plus `writeln!`'s own. -/
def headerStr (ts : String) : String :=
  "/// Code generated by shadow-rs generator. DO NOT EDIT.\n/// Author by:https://www.github.com/baoyachi\n/// The build script repository:https://github.com/baoyachi/shadow-rs\n/// Create time by:"
    ++ ts ++ "\n\n\n"

/-- The `(t, v)` pair computed by `write_const` (lines 288-291): an
`OptStr` entry renders with the plain type token and an empty value, a
`Str` entry with the plain type token and its stored value. -/
def renderedTV (val : ConstVal) : String × String :=
  match val.t with
  | ConstType.OptStr => (ConstType.typeStr ConstType.Str, "")
  | ConstType.Str => (ConstType.typeStr ConstType.Str, val.v)

/-- Text appended by one `write_const` call (lines 285-303): the
description comment line, then the `#[allow(dead_code)]` constant
definition with the uppercased key, rendered type, and the value inside
`r#"`..`"#` delimiters, then the blank line from `"{}\n"` plus
`writeln!`'s newline. -/
def renderConst (k : ShadowConst) (val : ConstVal) : String :=
  "/// " ++ val.desc ++ "\n"
    ++ "#[allow(dead_code)]\npub const " ++ toAsciiUppercase k ++ " :"
    ++ (renderedTV val).1 ++ " = r#\"" ++ (renderedTV val).2 ++ "\"#;"
    ++ "\n\n"

/-- The `for (k, v) in self.map.clone() { self.write_const(k, v)?; }` loop
of `gen_const` (lines 267-269), accumulating the file contents; `entries`
is the map's iteration sequence. -/
def genConstLoop (acc : String) : List (ShadowConst × ConstVal) → String
  | [] => acc
  | p :: rest => genConstLoop (acc ++ renderConst p.1 p.2) rest

/-- `gen_const` (lines 265-271): the header followed by one constant
definition per entry of the iteration sequence. -/
def genConst (ts : String) (entries : List (ShadowConst × ConstVal)) : String :=
  genConstLoop (headerStr ts) entries

/-- The constant block alone: the per-entry definitions in iteration
order, without the header. -/
def constBlock (entries : List (ShadowConst × ConstVal)) : String :=
  String.join (entries.map fun p => renderConst p.1 p.2)

/-- The branch-flavored `version()` template `VERSION_BRANCH_FN`
(lines 308-317), verbatim. -/
def VERSION_BRANCH_FN : String :=
  "#[allow(dead_code)]\npub fn version() -> String \x7b\n    format!(r#\"\npkg_version:\x7b\x7d\nbranch:\x7b\x7d\ncommit_hash:\x7b\x7d\nbuild_time:\x7b\x7d\nbuild_env:\x7b\x7d,\x7b\x7d\"#,PKG_VERSION, BRANCH, SHORT_COMMIT, BUILD_TIME, RUST_VERSION, RUST_CHANNEL\n    )\n\x7d"

/-- The tag-flavored `version()` template `VERSION_TAG_FN`
(lines 319-328), verbatim. -/
def VERSION_TAG_FN : String :=
  "#[allow(dead_code)]\npub fn version() -> String \x7b\n    format!(r#\"\npkg_version:\x7b\x7d\ntag:\x7b\x7d\ncommit_hash:\x7b\x7d\nbuild_time:\x7b\x7d\nbuild_env:\x7b\x7d,\x7b\x7d\"#,PKG_VERSION, TAG, SHORT_COMMIT, BUILD_TIME, RUST_VERSION, RUST_CHANNEL\n    )\n\x7d"

/-- Description comment of `write_version` (line 306). -/
def versionDesc : String :=
  "/// The common version method. It's so easy to use this method"

/-- Template selection of `write_version` (lines 330-339): the tag
template when the table has a `TAG` entry with non-empty value, the branch
template otherwise. -/
def versionFn (entries : List (ShadowConst × ConstVal)) : String :=
  match lookupKV TAG entries with
  | none => VERSION_BRANCH_FN
  | some tag => if ¬ tag.v = "" then VERSION_TAG_FN else VERSION_BRANCH_FN

/-- Text appended by `write_version` (lines 340-342). -/
def writeVersionOut (entries : List (ShadowConst × ConstVal)) : String :=
  versionDesc ++ "\n" ++ versionFn entries ++ "\n\n"

/-- The timestamp-independent part of the artifact: constant block
followed by the version function. -/
def artifactRest (entries : List (ShadowConst × ConstVal)) : String :=
  constBlock entries ++ writeVersionOut entries

/-- Full artifact text written by one `Shadow::build` run whose map
iterates as `entries`: `gen_const` output followed by `write_version`
output (lines 257-260). -/
def generateOut (ts : String) (entries : List (ShadowConst × ConstVal)) : String :=
  genConst ts entries ++ writeVersionOut entries

/- ### Effect ordering of `Shadow::build` (lines 228-262) -/

/-- Observable steps of `Shadow::build`, in the vocabulary of the claim:
creating the destination file, snapshotting the environment
(`Self::get_env`), resolving the three fact tables (`new_git`,
`new_project`, `new_system_env`), and the two output-writing phases. -/
inductive BuildEffect where
  | createFile (p : String)
  | snapshotEnv
  | resolveGit
  | resolveProject
  | resolveSystemEnv
  | writeConsts
  | writeVersionFn
  deriving DecidableEq

/-- Fallible points of `Shadow::build`: `File::create(out)?` (line 239),
`gen_const()?` (line 257) and `write_version()?` (line 260); `new_git`,
`new_project` and `new_system_env` are called without `?` and cannot fail
in this version. -/
inductive BuildError where
  | ioCreate
  | ioWriteConsts
  | ioWriteVersion
  deriving DecidableEq

/-- `Shadow::build` (lines 228-262) as a trace of effects in source order,
parameterized by whether each fallible operation succeeds: the destination
path is computed, `File::create` runs first (inside the `Shadow` struct
literal, line 239), then `get_env` (line 243), then the three fact
resolutions (lines 248-254), then `gen_const` and `write_version`.
Returns the effects performed and the run's outcome. -/
def buildRun (createOk writeConstsOk writeVersionOk : Bool) (out_path : String) :
    List BuildEffect × Except BuildError Unit :=
  let out := shadowOutPath out_path
  if !createOk then ([BuildEffect.createFile out], Except.error BuildError.ioCreate)
  else
    let tr := [BuildEffect.createFile out, BuildEffect.snapshotEnv,
      BuildEffect.resolveGit, BuildEffect.resolveProject, BuildEffect.resolveSystemEnv]
    if !writeConstsOk then (tr ++ [BuildEffect.writeConsts], Except.error BuildError.ioWriteConsts)
    else if !writeVersionOk then
      (tr ++ [BuildEffect.writeConsts, BuildEffect.writeVersionFn], Except.error BuildError.ioWriteVersion)
    else (tr ++ [BuildEffect.writeConsts, BuildEffect.writeVersionFn], Except.ok ())

/- ### Concrete inputs used by the counterexamples and witnesses -/

/-- Lexicographic strict order on character lists (character-code order),
used to state "sorted by key". -/
def lexLt : List Char → List Char → Bool
  | _, [] => false
  | [], _ :: _ => true
  | c :: cs, d :: ds => Nat.blt c.toNat d.toNat || (c == d && lexLt cs ds)

/-- Lexicographic strict order on strings, the order Rust's `str` ordering
gives on ASCII text. -/
def strLt (a b : String) : Bool := lexLt a.data b.data

/-- A possible iteration snapshot of a two-entry merged table: `b_key`
iterated before `a_key` (every permutation is a possible `HashMap`
iteration order), with `a_key` an `OptStr` entry whose stored value is
non-empty. -/
def exTabC1 : List (ShadowConst × ConstVal) :=
  [("b_key", ConstVal.mk "db" "vb" ConstType.Str),
   ("a_key", ConstVal.mk "da" "va" ConstType.OptStr)]

/-- One iteration snapshot of a two-entry merged table. -/
def cexL1 : List (ShadowConst × ConstVal) :=
  [("branch", ConstVal.mk "db" "master" ConstType.Str),
   ("pkg_version", ConstVal.mk "dp" "1.0" ConstType.Str)]

/-- The other iteration snapshot of the same two-entry mapping: same
entries, opposite iteration order. -/
def cexL2 : List (ShadowConst × ConstVal) :=
  [("pkg_version", ConstVal.mk "dp" "1.0" ConstType.Str),
   ("branch", ConstVal.mk "db" "master" ConstType.Str)]

/- ### Helper lemmas -/

/-- Folding string append from any accumulator splits off the accumulator. -/
theorem foldl_strAppend (l : List String) :
    ∀ a : String, l.foldl (· ++ ·) a = a ++ l.foldl (· ++ ·) "" := by
  induction l with
  | nil => intro a; simp [List.foldl, String.append_empty]
  | cons s rest ih =>
    intro a
    simp only [List.foldl]
    rw [ih (a ++ s), ih ("" ++ s), String.empty_append, String.append_assoc]

/-- `String.join` peels its head. -/
theorem strJoin_cons (s : String) (l : List String) :
    String.join (s :: l) = s ++ String.join l := by
  simp only [String.join, List.foldl]
  rw [foldl_strAppend l ("" ++ s), String.empty_append]

/-- The `gen_const` write loop appends the rendered constant block to its
accumulator. -/
theorem genConstLoop_join (l : List (ShadowConst × ConstVal)) :
    ∀ acc : String, genConstLoop acc l = acc ++ constBlock l := by
  induction l with
  | nil => intro acc; simp [genConstLoop, constBlock, String.join, String.append_empty]
  | cons p rest ih =>
    intro acc
    simp only [genConstLoop, constBlock, List.map]
    rw [ih, strJoin_cons, ← String.append_assoc]
    rfl

/-- Lookup after a single `HashMap::insert`. -/
theorem lookupKV_insertKV (m : List (ShadowConst × ConstVal)) (k : ShadowConst)
    (v : ConstVal) (k' : ShadowConst) :
    lookupKV k' (insertKV m k v) = if k = k' then some v else lookupKV k' m := by
  induction m with
  | nil =>
    by_cases h : k = k' <;> simp [insertKV, lookupKV, h]
  | cons p rest ih =>
    by_cases hpk : p.1 = k
    · by_cases h : k = k' <;> simp [insertKV, lookupKV, hpk, h]
    · by_cases hpk' : p.1 = k'
      · have h : ¬ k = k' := fun he => hpk (he ▸ hpk')
        have h2 : ¬ k' = k := fun he => h he.symm
        simp [insertKV, lookupKV, hpk, hpk', h, h2]
      · simp [insertKV, lookupKV, hpk, hpk', ih]

/-- A key absent from a table's key list looks up to `none`. -/
theorem lookupKV_eq_none_of_not_mem {α : Type} (k : String)
    (l : List (String × α)) (h : k ∉ l.map Prod.fst) : lookupKV k l = none := by
  induction l with
  | nil => rfl
  | cons p rest ih =>
    simp only [List.map, List.mem_cons] at h
    push_neg at h
    have h1 : ¬ p.1 = k := fun he => h.1 he.symm
    simp [lookupKV, h1, ih h.2]

/-- Lookup through one merge loop: the inserted table wins on its own keys
(it has unique keys, being a `HashMap`), the accumulator answers the rest. -/
theorem lookupKV_mergeStep (t : List (ShadowConst × ConstVal)) :
    ∀ m : List (ShadowConst × ConstVal), (t.map Prod.fst).Nodup →
    ∀ k, lookupKV k (mergeStep m t) =
      match lookupKV k t with
      | some v => some v
      | none => lookupKV k m := by
  induction t with
  | nil => intro m _ k; simp [mergeStep, lookupKV]
  | cons p rest ih =>
    intro m hnd k
    simp only [List.map, List.nodup_cons] at hnd
    have hstep : mergeStep m (p :: rest) = mergeStep (insertKV m p.1 p.2) rest := rfl
    rw [hstep, ih (insertKV m p.1 p.2) hnd.2 k]
    by_cases hk : p.1 = k
    · have hrest : lookupKV k rest = none :=
        lookupKV_eq_none_of_not_mem k rest (hk ▸ hnd.1)
      simp [lookupKV, hk, hrest, lookupKV_insertKV]
    · simp only [lookupKV, hk, if_neg]
      cases hfind : lookupKV k rest with
      | some v => simp
      | none => simp [lookupKV_insertKV, hk]

/-- Wrapping a string between fixed texts is injective. -/
theorem strWrap_injective (pre post : String) :
    Function.Injective (fun u : String => pre ++ u ++ post) := by
  intro a b h
  have hd : pre.data ++ a.data ++ post.data = pre.data ++ b.data ++ post.data := by
    have h2 := congrArg String.data h
    simpa [String.data_append] using h2
  exact String.ext (List.append_cancel_left (List.append_cancel_right hd))

/- ### Claim theorems -/

set_option maxRecDepth 10000

/-- Claim C1 (amended): for every merged table, the generated constant
block consists of exactly one constant definition per table entry, emitted
in the table's iteration order (the code performs no sorting), each
definition opening with a fixed header that embeds the entry's uppercased
key (so distinct keys give pairwise distinct definitions), and the
rendered value — embedded verbatim just before the closing delimiter — is
the entry's exact stored string for `Str` entries (`OptStr` entries render
empty). -/
theorem c1_const_block_amended (ts : String) (entries : List (ShadowConst × ConstVal)) :
    genConst ts entries = headerStr ts ++ constBlock entries
  ∧ constBlock entries = String.join (entries.map fun p => renderConst p.1 p.2)
  ∧ (∀ p : ShadowConst × ConstVal, p ∈ entries →
      ∃ pre : String,
        renderConst p.1 p.2 = pre ++ ((renderedTV p.2).2 ++ ("\"#;" ++ "\n\n"))
        ∧ (p.2.t = ConstType.Str → (renderedTV p.2).2 = p.2.v))
  ∧ ((entries.map fun p => toAsciiUppercase p.1).Nodup →
      (entries.map fun p =>
        "#[allow(dead_code)]\npub const " ++ toAsciiUppercase p.1 ++ " :").Nodup) := by
  refine ⟨genConstLoop_join entries (headerStr ts), rfl, ?_, ?_⟩
  · rintro ⟨k0, d0, v0, t0⟩ _
    refine ⟨"/// " ++ d0 ++ "\n" ++ "#[allow(dead_code)]\npub const "
      ++ toAsciiUppercase k0 ++ " :" ++ (renderedTV (ConstVal.mk d0 v0 t0)).1 ++ " = r#\"", ?_, ?_⟩
    · simp [renderConst, String.append_assoc]
    · intro ht
      cases t0
      · exact absurd ht (by simp)
      · rfl
  · intro hnd
    have hmap : (entries.map fun p =>
        "#[allow(dead_code)]\npub const " ++ toAsciiUppercase p.1 ++ " :")
        = (entries.map fun p => toAsciiUppercase p.1).map
            (fun u => "#[allow(dead_code)]\npub const " ++ u ++ " :") := by
      simp [List.map_map]
    rw [hmap]
    exact hnd.map (strWrap_injective "#[allow(dead_code)]\npub const " " :")

/-- Witness for C1 (amended), at a concrete timestamp and one-entry table:
the artifact splits as header plus constant block, the single definition
embeds the value `va` verbatim before the closing delimiter, and the
definition headers are pairwise distinct. -/
theorem c1_const_block_amended_witness :
    genConst "TS" [("a_key", ConstVal.mk "da" "va" ConstType.Str)]
      = headerStr "TS" ++ constBlock [("a_key", ConstVal.mk "da" "va" ConstType.Str)]
  ∧ (∃ pre : String,
      renderConst "a_key" (ConstVal.mk "da" "va" ConstType.Str)
        = pre ++ ((renderedTV (ConstVal.mk "da" "va" ConstType.Str)).2 ++ ("\"#;" ++ "\n\n"))
      ∧ (ConstType.Str = ConstType.Str →
          (renderedTV (ConstVal.mk "da" "va" ConstType.Str)).2 = "va"))
  ∧ ([("a_key", ConstVal.mk "da" "va" ConstType.Str)].map fun p =>
      "#[allow(dead_code)]\npub const " ++ toAsciiUppercase p.1 ++ " :").Nodup :=
  ⟨(c1_const_block_amended "TS" [("a_key", ConstVal.mk "da" "va" ConstType.Str)]).1,
   (c1_const_block_amended "TS" [("a_key", ConstVal.mk "da" "va" ConstType.Str)]).2.2.1
     ("a_key", ConstVal.mk "da" "va" ConstType.Str) (by decide),
   (c1_const_block_amended "TS" [("a_key", ConstVal.mk "da" "va" ConstType.Str)]).2.2.2
     (by decide)⟩

/-- Counterexample for C1 as stated: for the merged table snapshot
`exTabC1`, the key `a_key` sorts before `b_key`, yet `B_KEY`'s constant
definition is emitted before `A_KEY`'s (the block is in iteration order,
not sorted), and the stored value `va` of the `OptStr` entry `a_key` does
not appear anywhere in the output (not reproduced verbatim), while `vb`
does. -/
theorem c1_sorted_order_counterexample :
    strLt "a_key" "b_key" = true
  ∧ strLt (toAsciiUppercase "a_key") (toAsciiUppercase "b_key") = true
  ∧ (strPos (genConst "TS" exTabC1) "pub const B_KEY").getD 999 <
      (strPos (genConst "TS" exTabC1) "pub const A_KEY").getD 0
  ∧ hasSub (genConst "TS" exTabC1) "va" = false
  ∧ hasSub (genConst "TS" exTabC1) "vb" = true
  ∧ lookupKV "a_key" exTabC1 = some (ConstVal.mk "da" "va" ConstType.OptStr) := by
  decide

/-- Claim C2 (amended): generation is deterministic given the table's
iteration sequence and the timestamp — the full artifact is exactly the
timestamp-dependent header followed by a remainder that is a function of
the iteration sequence alone. -/
theorem c2_generate_header_rest_split (ts : String)
    (entries : List (ShadowConst × ConstVal)) :
    generateOut ts entries = headerStr ts ++ artifactRest entries := by
  rw [generateOut, genConst, genConstLoop_join, artifactRest, String.append_assoc]

/-- Counterexample for C2 as stated: `cexL1` and `cexL2` are iteration
snapshots of one and the same merged table (same entries, a permutation,
agreeing on every key), yet generation at the same fixed timestamp
produces different bytes — the output is not a function of the mapping
plus the timestamp. -/
theorem c2_determinism_counterexample :
    List.Perm cexL1 cexL2
  ∧ lookupKV "branch" cexL1 = lookupKV "branch" cexL2
  ∧ lookupKV "pkg_version" cexL1 = lookupKV "pkg_version" cexL2
  ∧ ¬ generateOut "2020-08-16 13:48:52" cexL1
      = generateOut "2020-08-16 13:48:52" cexL2 := by
  decide

/-- Claim C3 (code bug evaluation): the destination path computed by
`Shadow::build` for the trailing-slash directory `./out/` is
`./out/shadow.rs` as the claim states, but for `./out` it is
`./out/./out/shadow.rs` — which normalizes to `out/out/shadow.rs`, not to
`out/shadow.rs`, so the file is not placed directly under `./out`. -/
theorem c3_dest_path_eval :
    shadowOutPath "./out" = "./out/./out/shadow.rs"
  ∧ ¬ normPath (shadowOutPath "./out") = normPath "./out/shadow.rs"
  ∧ normPath (shadowOutPath "./out") = "out/out/shadow.rs"
  ∧ shadowOutPath "./out/" = "./out/shadow.rs" := by
  decide

/-- Claim C4 (amended): `write_const` performs no delimiter-collision
detection — for every value, including values containing the closing
delimiter sequence, it totally succeeds and embeds the value verbatim
between a fixed prefix ending in `r#"` and the fixed closing text
`"#;`. -/
theorem c4_verbatim_no_check (k : ShadowConst) (d : String) :
    ∃ pre post : String,
      (∀ v : String, renderConst k (ConstVal.mk d v ConstType.Str) = pre ++ (v ++ post))
      ∧ post = "\"#;" ++ "\n\n" := by
  refine ⟨"/// " ++ d ++ "\n" ++ "#[allow(dead_code)]\npub const "
    ++ toAsciiUppercase k ++ " :" ++ ConstType.typeStr ConstType.Str ++ " = r#\"",
    "\"#;" ++ "\n\n", fun v => ?_, rfl⟩
  simp [renderConst, renderedTV, String.append_assoc]

/-- Counterexample for C4 as stated: a value containing the delimiter
sequence `"#` does not make generation fail — the constant is emitted,
and the artifact is corrupted: the first raw-string region of the emitted
definition closes early, carrying `x` instead of the stored `x"#y`. -/
theorem c4_collision_counterexample :
    renderConst "cargo_tree" (ConstVal.mk "desc" "x\"#y" ConstType.Str)
      = "/// desc\n#[allow(dead_code)]\npub const CARGO_TREE :&str = r#\"x\"#y\"#;\n\n"
  ∧ firstRawRegion (renderConst "cargo_tree" (ConstVal.mk "desc" "x\"#y" ConstType.Str)) = "x"
  ∧ ¬ ("x" : String) = "x\"#y" := by
  decide

/-- Claim C5: the generated summary function is selected by one rule — a
`TAG` entry with non-empty value yields the tag-flavored template (which
contains the label `tag:`), and `TAG` absent or empty yields the
branch-flavored template (which contains the label `branch:` and no
`tag:` label). -/
theorem c5_version_selection (entries : List (ShadowConst × ConstVal)) :
    (∀ tv : ConstVal, lookupKV TAG entries = some tv → ¬ tv.v = "" →
      versionFn entries = VERSION_TAG_FN)
  ∧ (lookupKV TAG entries = none → versionFn entries = VERSION_BRANCH_FN)
  ∧ (∀ tv : ConstVal, lookupKV TAG entries = some tv → tv.v = "" →
      versionFn entries = VERSION_BRANCH_FN)
  ∧ hasSub VERSION_TAG_FN "tag:" = true
  ∧ hasSub VERSION_BRANCH_FN "branch:" = true
  ∧ hasSub VERSION_BRANCH_FN "tag:" = false := by
  refine ⟨?_, ?_, ?_, by decide, by decide, by decide⟩
  · intro tv h hne
    simp [versionFn, h, hne]
  · intro h
    simp [versionFn, h]
  · intro tv h he
    simp [versionFn, h, he]

/-- Witness for C5: a table with `TAG = "v1.0.0"` selects the tag
template, a table with an empty-valued `TAG` and a table without `TAG`
select the branch template. -/
theorem c5_version_selection_witness :
    versionFn [(TAG, ConstVal.mk "d" "v1.0.0" ConstType.Str)] = VERSION_TAG_FN
  ∧ versionFn [(TAG, ConstVal.mk "d" "" ConstType.Str)] = VERSION_BRANCH_FN
  ∧ versionFn [("branch", ConstVal.mk "d" "master" ConstType.Str)] = VERSION_BRANCH_FN :=
  ⟨(c5_version_selection [(TAG, ConstVal.mk "d" "v1.0.0" ConstType.Str)]).1
      (ConstVal.mk "d" "v1.0.0" ConstType.Str) (by decide) (by decide),
   (c5_version_selection [(TAG, ConstVal.mk "d" "" ConstType.Str)]).2.2.1
      (ConstVal.mk "d" "" ConstType.Str) (by decide) rfl,
   (c5_version_selection [("branch", ConstVal.mk "d" "master" ConstType.Str)]).2.1
      (by decide)⟩

/-- Claim C6: `try_ci` is a pure function of the environment snapshot that
checks `GITLAB_CI` before `GITHUB_ACTIONS`, where an indicator wins only
by being the literal string `"true"`, and returns `None` whenever neither
recognized indicator is `"true"` (unrecognized CI platforms included),
without failing. -/
theorem c6_try_ci_precedence (env : List (String × String)) :
    (lookupKV "GITLAB_CI" env = some "true" → tryCI env = CIType.Gitlab)
  ∧ (¬ lookupKV "GITLAB_CI" env = some "true" →
      lookupKV "GITHUB_ACTIONS" env = some "true" → tryCI env = CIType.Github)
  ∧ (¬ lookupKV "GITLAB_CI" env = some "true" →
      ¬ lookupKV "GITHUB_ACTIONS" env = some "true" → tryCI env = CIType.None) := by
  refine ⟨?_, ?_, ?_⟩
  · intro h
    simp [tryCI, h]
  · intro h hg
    have hstep : tryCIGithubStep env = CIType.Github := by simp [tryCIGithubStep, hg]
    unfold tryCI
    cases hl : lookupKV "GITLAB_CI" env with
    | none => exact hstep
    | some c =>
      have hc : ¬ c = "true" := fun he => h (he ▸ hl)
      simp [hc, hstep]
  · intro h hg
    have hstep : tryCIGithubStep env = CIType.None := by
      unfold tryCIGithubStep
      cases hl : lookupKV "GITHUB_ACTIONS" env with
      | none => rfl
      | some c =>
        have hc : ¬ c = "true" := fun he => hg (he ▸ hl)
        simp [hc]
    unfold tryCI
    cases hl : lookupKV "GITLAB_CI" env with
    | none => exact hstep
    | some c =>
      have hc : ¬ c = "true" := fun he => h (he ▸ hl)
      simp [hc, hstep]

/-- Witness for C6: with both indicators set to `"true"`, Gitlab wins
(checked first); an unrecognized CI variable alone yields `None`. -/
theorem c6_try_ci_precedence_witness :
    tryCI [("GITLAB_CI", "true"), ("GITHUB_ACTIONS", "true")] = CIType.Gitlab
  ∧ tryCI [("CIRCLECI", "true")] = CIType.None :=
  ⟨(c6_try_ci_precedence [("GITLAB_CI", "true"), ("GITHUB_ACTIONS", "true")]).1 (by decide),
   (c6_try_ci_precedence [("CIRCLECI", "true")]).2.2 (by decide) (by decide)⟩

/-- Claim C7: the merge inserts the provider tables in the fixed order VCS
facts, then project facts, then environment/system facts, with
last-writer-wins on key collision: a key defined by the system table takes
its value from there; otherwise a key defined by the project table takes
its value from there; otherwise the VCS table answers.  The project and
system tables are `HashMap`s, so their key lists are duplicate-free. -/
theorem c7_merge_last_writer_wins (git proj sys : List (ShadowConst × ConstVal))
    (hproj : (proj.map Prod.fst).Nodup) (hsys : (sys.map Prod.fst).Nodup)
    (k : ShadowConst) :
    (∀ v : ConstVal, lookupKV k sys = some v →
      lookupKV k (mergedMap git proj sys) = some v)
  ∧ (lookupKV k sys = none → ∀ v : ConstVal, lookupKV k proj = some v →
      lookupKV k (mergedMap git proj sys) = some v)
  ∧ (lookupKV k sys = none → lookupKV k proj = none →
      lookupKV k (mergedMap git proj sys) = lookupKV k git) := by
  have hm : lookupKV k (mergedMap git proj sys) =
      match lookupKV k sys with
      | some v => some v
      | none =>
        match lookupKV k proj with
        | some v => some v
        | none => lookupKV k git := by
    rw [mergedMap, lookupKV_mergeStep sys _ hsys k, lookupKV_mergeStep proj _ hproj k]
  refine ⟨?_, ?_, ?_⟩
  · intro v hv
    rw [hm, hv]
  · intro hn v hv
    rw [hm, hn, hv]
  · intro hn hp
    rw [hm, hn, hp]

/-- Witness for C7: on single-entry provider tables sharing the key `k`,
the merged value is the system table's; with the system table empty it is
the project table's. -/
theorem c7_merge_last_writer_wins_witness :
    lookupKV "k" (mergedMap [("k", ConstVal.mk "g" "gv" ConstType.Str)]
        [("k", ConstVal.mk "p" "pv" ConstType.Str)]
        [("k", ConstVal.mk "s" "sv" ConstType.Str)])
      = some (ConstVal.mk "s" "sv" ConstType.Str)
  ∧ lookupKV "k" (mergedMap [("k", ConstVal.mk "g" "gv" ConstType.Str)]
        [("k", ConstVal.mk "p" "pv" ConstType.Str)] [])
      = some (ConstVal.mk "p" "pv" ConstType.Str) :=
  ⟨(c7_merge_last_writer_wins [("k", ConstVal.mk "g" "gv" ConstType.Str)]
      [("k", ConstVal.mk "p" "pv" ConstType.Str)]
      [("k", ConstVal.mk "s" "sv" ConstType.Str)]
      (by decide) (by decide) "k").1 (ConstVal.mk "s" "sv" ConstType.Str) (by decide),
   (c7_merge_last_writer_wins [("k", ConstVal.mk "g" "gv" ConstType.Str)]
      [("k", ConstVal.mk "p" "pv" ConstType.Str)] []
      (by decide) (by decide) "k").2.1 rfl (ConstVal.mk "p" "pv" ConstType.Str) (by decide)⟩

/-- Claim C8: an `OptStr` (OptionalNormalizedToPlain) entry whose logical
value is absent (stored as the empty string) renders exactly like a plain
`Str` entry with empty value — empty string as value and the plain-string
rendered type, which differs from the optional type's rendering. -/
theorem c8_optstr_absent_plain (k : ShadowConst) (d : String) :
    renderConst k (ConstVal.mk d "" ConstType.OptStr)
      = renderConst k (ConstVal.mk d "" ConstType.Str)
  ∧ renderedTV (ConstVal.mk d "" ConstType.OptStr)
      = (ConstType.typeStr ConstType.Str, "")
  ∧ ¬ ConstType.typeStr ConstType.Str = ConstType.typeStr ConstType.OptStr :=
  ⟨rfl, rfl, by decide⟩

/-- Claim C9: `write_const` renders every `OptStr` entry with the empty
string as value, unconditionally — the stored value is discarded even when
non-empty, the rendered text coinciding with that of the same entry with
an empty stored value. -/
theorem c9_optstr_discards_value (k : ShadowConst) (d v : String) :
    (renderedTV (ConstVal.mk d v ConstType.OptStr)).2 = ""
  ∧ renderConst k (ConstVal.mk d v ConstType.OptStr)
      = renderConst k (ConstVal.mk d "" ConstType.OptStr) :=
  ⟨rfl, rfl⟩

/-- Claim C10: `Shadow::build` attempts to create (truncating if present)
the destination file as its very first effect, before snapshotting the
environment or resolving any facts; hence every run that fails with a
fatal error other than the creation failure itself has already performed
the file creation. -/
theorem c10_create_first_effect (createOk writeConstsOk writeVersionOk : Bool)
    (out_path : String) :
    (buildRun createOk writeConstsOk writeVersionOk out_path).1.head?
      = some (BuildEffect.createFile (shadowOutPath out_path))
  ∧ (∀ e : BuildError,
      (buildRun createOk writeConstsOk writeVersionOk out_path).2 = Except.error e →
      ¬ e = BuildError.ioCreate →
      BuildEffect.createFile (shadowOutPath out_path)
        ∈ (buildRun createOk writeConstsOk writeVersionOk out_path).1) := by
  cases createOk <;> cases writeConstsOk <;> cases writeVersionOk <;>
    exact ⟨rfl, by intro e he hne; simp_all [buildRun]⟩

/-- Witness for C10: a run whose constant-writing phase fails has
performed the destination-file creation. -/
theorem c10_create_first_effect_witness :
    (buildRun true false true "./out/").2 = Except.error BuildError.ioWriteConsts
  ∧ BuildEffect.createFile (shadowOutPath "./out/")
      ∈ (buildRun true false true "./out/").1 :=
  ⟨rfl, (c10_create_first_effect true false true "./out/").2
      BuildError.ioWriteConsts rfl (by decide)⟩
